import Mathlib

/-!
Shallow embedding of the DOOMLOADER NAM loading-and-validation pipeline and
the amp-simulation signal chain (`doomloader/nam_loader.py` and
`doomloader/amp_simulator.py`), together with theorems settling the spec
claims about them.

Modelling conventions:
* Python dicts are insertion-ordered association lists (`List (String × β)`);
  item assignment overwrites in place or appends at the end, as in CPython.
* Dictionary values occurring in loaded records are modelled by the flat
  value universe `JVal` (strings, integers, booleans, null, raw bytes);
  no claim inspects nested payload structure.
* Machine floats are modelled by an arbitrary `LinearOrderedField`; the
  transcendental functions `np.tanh`, `np.sin` and the constant `np.pi`
  are abstract operations supplied through `MathOps`, so every definition
  stays computable and the theorems hold for the real instantiation.
* Exceptions become `Except`; the distinct `ValueError` raise sites keep
  distinct constructors.  Methods that may mutate state before raising
  return the post-call state alongside the `Except`, mirroring exactly the
  statements executed before each raise.
* The file system is a partial map from path strings to `File` records
  describing the file's size, its raw bytes, and the outcomes of the two
  deserializations the loader may attempt (`pickle.load` for `.nam`,
  `json.load` for `.json`).
-/

/-- Flat value universe for dictionary entries of loaded model records. -/
inductive JVal where
  | jstr : String → JVal
  | jnum : Int → JVal
  | jbool : Bool → JVal
  | jnull : JVal
  | jbytes : List Nat → JVal
deriving DecidableEq

/-- Python dict modelled as an insertion-ordered association list. -/
abbrev Dict := List (String × JVal)

/-- `k in d` (Python key-membership test, for any value type). -/
def dmem {β : Type} (d : List (String × β)) (k : String) : Bool :=
  d.any (fun p => p.1 == k)

/-- `d[k]` as an option (first binding wins). -/
def dget {β : Type} (d : List (String × β)) (k : String) : Option β :=
  (d.find? (fun p => p.1 == k)).map (fun p => p.2)

/-- `d[k] = v` (Python item assignment: overwrite in place, else append). -/
def dset {β : Type} (d : List (String × β)) (k : String) (v : β) :
    List (String × β) :=
  if dmem d k then d.map (fun p => if p.1 == k then (k, v) else p)
  else d ++ [(k, v)]

/-- Path object: `str(path)`, `path.stem`, `path.suffix`. -/
structure FPath where
  pstr : String
  stem : String
  suffix : String
deriving DecidableEq

/-- Outcome of `pickle.load` on a file's bytes. -/
inductive PickleResult where
  | asDict : Dict → PickleResult       -- succeeds, yields a dict
  | asOther : JVal → PickleResult      -- succeeds, yields a non-dict value
  | unpickleErr : PickleResult         -- raises pickle.UnpicklingError
  | otherErr : PickleResult            -- raises some other exception
deriving DecidableEq

/-- Outcome of `json.load` on a file's text. -/
inductive JsonResult where
  | asDict : Dict → JsonResult         -- parses to a JSON object
  | asOther : JVal → JsonResult        -- parses to a non-object value
  | parseErr : JsonResult              -- raises json.JSONDecodeError
deriving DecidableEq

/-- An existing file: stat size, raw bytes, and both deserialization outcomes. -/
structure File where
  size : Nat
  raw : List Nat
  pickleResult : PickleResult
  jsonResult : JsonResult
deriving DecidableEq

/-- File system: partial map from path string to file. -/
abbrev FileSys := String → Option File

/-- Errors raised by `NAMLoader.load_nam_file`. -/
inductive LoaderErr where
  | notFound : LoaderErr               -- FileNotFoundError
  | unsupportedFormat : LoaderErr      -- ValueError "Unsupported file format"
  | loadFailure : LoaderErr            -- ValueError "Error loading NAM file"
deriving DecidableEq

/-- `NAMLoader._load_alternative_format`: raw-bytes fallback record. -/
def load_alternative_format (p : FPath) (f : File) : Dict :=
  [("raw_data", JVal.jbytes f.raw),
   ("file_path", JVal.jstr p.pstr),
   ("file_size", JVal.jnum (Int.ofNat f.raw.length)),
   ("model_type", JVal.jstr "nam_binary"),
   ("needs_processing", JVal.jbool true)]

/-- Stamp `file_path`, `file_size`, `model_type` into a `.nam` record,
in the order the source assigns them. -/
def stampNam (p : FPath) (f : File) (d : Dict) : Dict :=
  dset (dset (dset d "file_path" (JVal.jstr p.pstr))
      "file_size" (JVal.jnum (Int.ofNat f.size)))
    "model_type" (JVal.jstr "nam")

/-- `NAMLoader._load_nam_model`: unpickle, wrap non-dicts, stamp metadata;
fall back to the raw-bytes record on `UnpicklingError`. -/
def load_nam_model_file (p : FPath) (f : File) : Except LoaderErr Dict :=
  match f.pickleResult with
  | PickleResult.asDict d => Except.ok (stampNam p f d)
  | PickleResult.asOther v => Except.ok (stampNam p f [("raw_data", v)])
  | PickleResult.unpickleErr => Except.ok (load_alternative_format p f)
  | PickleResult.otherErr => Except.error LoaderErr.loadFailure

/-- `NAMLoader._load_json_metadata`: parse JSON, stamp `file_path` and
`metadata_type` (a non-object top level makes the item assignment raise). -/
def load_json_metadata (p : FPath) (f : File) : Except LoaderErr Dict :=
  match f.jsonResult with
  | JsonResult.asDict d =>
      Except.ok (dset (dset d "file_path" (JVal.jstr p.pstr))
        "metadata_type" (JVal.jstr "nam_config"))
  | JsonResult.asOther _ => Except.error LoaderErr.loadFailure
  | JsonResult.parseErr => Except.error LoaderErr.loadFailure

/-- `NAMLoader.supported_formats`. -/
def supported_formats : List String := [".nam", ".json"]

/-- Python's `str.lower()` on the suffix (ASCII lowering, which covers every
extension the loader compares against). -/
def strToLower (s : String) : String := String.mk (s.data.map Char.toLower)

/-- `NAMLoader.load_nam_file`: existence check, case-insensitive extension
dispatch, branch loaders, exceptions inside the try re-raised as
`ValueError` (`loadFailure`). -/
def load_nam_file (fs : FileSys) (p : FPath) : Except LoaderErr Dict :=
  match fs p.pstr with
  | none => Except.error LoaderErr.notFound
  | some f =>
      if (supported_formats.contains (strToLower p.suffix)) then
        if strToLower p.suffix == ".nam" then load_nam_model_file p f
        else load_json_metadata p f
      else Except.error LoaderErr.unsupportedFormat

/-- `NAMLoader.validate_nam_file`: presence check of the required keys. -/
def validate_nam_file (model_data : Dict) : Bool :=
  dmem model_data "file_path" && dmem model_data "model_type"

/-- Amp parameter store (`AmpSimulator.processing_parameters`). -/
structure Params (α : Type) where
  gain : α
  tone : α
  volume : α
  bias : α
deriving DecidableEq

/-- Abstract numeric operations standing in for `np.tanh`, `np.sin`, `np.pi`. -/
structure MathOps (α : Type) where
  tanh : α → α
  sin : α → α
  piv : α

/-- `AmpSimulator` state: registry of loaded models, current selection,
parameter store. -/
structure SimState (α : Type) where
  loaded_models : List (String × Dict)
  current_model : Option String
  params : Params α
deriving DecidableEq

/-- The distinct `ValueError` raise sites of `AmpSimulator`, plus the
`KeyError` a dangling selection would produce. -/
inductive SimErr where
  | modelLoadError : SimErr     -- "Failed to load NAM model ..."
  | unknownModel : String → SimErr  -- "Model '...' not loaded"
  | noModelSelected : SimErr    -- "No NAM model loaded for processing"
  | invalidInput : SimErr       -- "Audio data must be a numpy array"
  | keyErr : String → SimErr    -- KeyError on loaded_models lookup
deriving DecidableEq

/-- `AmpSimulator.__init__` state (defaults gain 1.0, tone 0.5,
volume 0.8, bias 0.0). -/
def initState {α : Type} [LinearOrderedField α] : SimState α :=
  { loaded_models := [], current_model := none,
    params := { gain := 1, tone := 0.5, volume := 0.8, bias := 0 } }

/-- `AmpSimulator.load_nam_model`: derive name from the stem when absent,
load, validate, insert, auto-select when no current model; every failure
is re-raised as `ValueError` with the state exactly as before the call. -/
def load_nam_model {α : Type} (fs : FileSys) (s : SimState α) (p : FPath)
    (name : Option String) : SimState α × Except SimErr String :=
  let model_name := name.getD p.stem
  match load_nam_file fs p with
  | Except.error _ => (s, Except.error SimErr.modelLoadError)
  | Except.ok model_data =>
      if validate_nam_file model_data then
        match s.current_model with
        | none =>
            ({ loaded_models := dset s.loaded_models model_name model_data,
               current_model := some model_name, params := s.params },
             Except.ok model_name)
        | some c =>
            ({ loaded_models := dset s.loaded_models model_name model_data,
               current_model := some c, params := s.params },
             Except.ok model_name)
      else (s, Except.error SimErr.modelLoadError)

/-- `AmpSimulator.set_current_model`. -/
def set_current_model {α : Type} (s : SimState α) (model_name : String) :
    SimState α × Except SimErr Unit :=
  if dmem s.loaded_models model_name then
    ({ s with current_model := some model_name }, Except.ok ())
  else (s, Except.error (SimErr.unknownModel model_name))

/-- `AmpSimulator.get_loaded_models`. -/
def get_loaded_models {α : Type} (s : SimState α) : List String :=
  s.loaded_models.map (fun p => p.1)

/-- One keyword argument of `AmpSimulator.set_parameters`: clamp known
fields into range, warn on unknown names. -/
def setOneParam {α : Type} [LinearOrderedField α] (ps : Params α)
    (k : String) (v : α) : Params α × List String :=
  if k == "gain" then ({ ps with gain := max 0 (min 1 v) }, [])
  else if k == "tone" then ({ ps with tone := max 0 (min 1 v) }, [])
  else if k == "volume" then ({ ps with volume := max 0 (min 1 v) }, [])
  else if k == "bias" then ({ ps with bias := max (-1) (min 1 v) }, [])
  else (ps, ["Unknown parameter: " ++ k])

/-- `AmpSimulator.set_parameters` over the keyword-argument list, collecting
the warnings emitted. -/
def set_parameters {α : Type} [LinearOrderedField α] (ps : Params α)
    (kvs : List (String × α)) : Params α × List String :=
  kvs.foldl
    (fun acc kv =>
      let r := setOneParam acc.1 kv.1 kv.2
      (r.1, acc.2 ++ r.2)) (ps, [])

/-- `np.clip(x, -1.0, 1.0)`. -/
def clampUnit {α : Type} [LinearOrderedField α] (x : α) : α :=
  max (-1) (min 1 x)

/-- `AmpSimulator._apply_preprocessing`, per sample. -/
def preprocessSample {α : Type} [LinearOrderedField α] (ps : Params α)
    (x : α) : α :=
  clampUnit (x * ps.gain + ps.bias)

/-- `AmpSimulator._apply_nam_simulation`, per sample (the record payload is
never consulted). -/
def namSimSample {α : Type} [LinearOrderedField α] (ops : MathOps α)
    (ps : Params α) (x : α) : α :=
  let drive := 1 + ps.tone * 4
  clampUnit (ops.tanh (x * drive) / drive + ops.sin (x * ops.piv) * ps.tone * 0.1)

/-- `AmpSimulator._apply_postprocessing`, per sample. -/
def postprocessSample {α : Type} [LinearOrderedField α] (ps : Params α)
    (x : α) : α :=
  clampUnit (x * ps.volume)

/-- Audio argument: a numeric array or anything else. -/
inductive AudioInput (α : Type) where
  | arr : List α → AudioInput α
  | notArray : AudioInput α

/-- `AmpSimulator.process_audio`: current-model gate, numpy-array gate,
registry lookup, then the three stages in order. -/
def process_audio {α : Type} [LinearOrderedField α] (ops : MathOps α)
    (s : SimState α) (input : AudioInput α) : Except SimErr (List α) :=
  match s.current_model with
  | none => Except.error SimErr.noModelSelected
  | some cur =>
      match input with
      | AudioInput.notArray => Except.error SimErr.invalidInput
      | AudioInput.arr xs =>
          match dget s.loaded_models cur with
          | none => Except.error (SimErr.keyErr cur)
          | some _ =>
              Except.ok
                (((xs.map (preprocessSample s.params)).map
                    (namSimSample ops s.params)).map
                  (postprocessSample s.params))

/-- The spec's reading of validity (`origin_path` present AND a non-empty
string AND `record_kind` present), written from the spec's words for
comparison with `validate_nam_file`. -/
def specValid (d : Dict) : Bool :=
  (match dget d "file_path" with
   | some (JVal.jstr str) => !(str == "")
   | _ => false) && dmem d "model_type"

/-- Registry invariant of the spec: a set current selection always refers to
an existing key of the models mapping. -/
def RegInv {α : Type} (s : SimState α) : Prop :=
  ∀ c, s.current_model = some c → dmem s.loaded_models c = true

/-! ### Concrete scenario data used by counterexamples and witnesses -/

/-- Identity-flavoured numeric operations over `ℚ`, used to instantiate the
abstract `tanh`/`sin`/`π` in closed witnesses. -/
def opsQ : MathOps ℚ :=
  { tanh := fun x => x, sin := fun x => x, piv := 3 }

/-- The registry record `basic_usage.py` installs by hand for its demo. -/
def demoRec : Dict :=
  [("file_path", JVal.jstr "demo"), ("model_type", JVal.jstr "nam"),
   ("file_size", JVal.jnum 1024)]

/-- Simulator state with the demo record installed and selected. -/
def demoState : SimState ℚ :=
  { loaded_models := [("demo_model", demoRec)],
    current_model := some "demo_model",
    params := { gain := 1, tone := 0.5, volume := 0.8, bias := 0 } }

/-- The spec's end-to-end metadata file: a JSON object `{"name": "clean_jazz"}`. -/
def cleanJazzFile : File :=
  { size := 23, raw := [], pickleResult := PickleResult.otherErr,
    jsonResult := JsonResult.asDict [("name", JVal.jstr "clean_jazz")] }

/-- File system holding only the `{"name": "clean_jazz"}` metadata file. -/
def cleanJazzFs : FileSys :=
  fun s => if s == "clean_jazz.json" then some cleanJazzFile else none

/-- The metadata file's path. -/
def cleanJazzPath : FPath :=
  { pstr := "clean_jazz.json", stem := "clean_jazz", suffix := ".json" }

/-- Variant metadata file whose JSON already carries a `model_type` key —
the minimal change that lets `validate_nam_file` accept the loaded record. -/
def cleanJazzTypedFile : File :=
  { size := 50, raw := [], pickleResult := PickleResult.otherErr,
    jsonResult := JsonResult.asDict
      [("name", JVal.jstr "clean_jazz"), ("model_type", JVal.jstr "nam_config")] }

/-- File system holding only the typed metadata file. -/
def cleanJazzTypedFs : FileSys :=
  fun s => if s == "clean_jazz.json" then some cleanJazzTypedFile else none

/-- Simulator state after loading the typed metadata file into a fresh
simulator. -/
def c1LoadedState {α : Type} [LinearOrderedField α] : SimState α :=
  (load_nam_model cleanJazzTypedFs initState cleanJazzPath none).1

/-- Simulator state after additionally selecting `"clean_jazz"`. -/
def c1SelectedState {α : Type} [LinearOrderedField α] : SimState α :=
  (set_current_model (c1LoadedState (α := α)) "clean_jazz").1

/-! ### Association-list (Python dict) lemmas -/

theorem dmem_eq_isSome {β : Type} (d : List (String × β)) (k : String) :
    dmem d k = (d.find? (fun p => p.1 == k)).isSome := by
  induction d with
  | nil => rfl
  | cons p d ih =>
      unfold dmem at ih ⊢
      rw [List.any_cons]
      cases hp : (p.1 == k) with
      | true => simp [List.find?_cons, hp]
      | false => simp [List.find?_cons, hp, ih]

theorem find?_overwrite_self {β : Type} (d : List (String × β)) (k : String) (v : β) :
    (d.map (fun p => if p.1 == k then (k, v) else p)).find? (fun p => p.1 == k) =
      (d.find? (fun p => p.1 == k)).map (fun _ => (k, v)) := by
  induction d with
  | nil => rfl
  | cons p d ih =>
      rw [List.map_cons]
      cases hp : (p.1 == k) with
      | true => simp [List.find?_cons, hp]
      | false =>
          simp only [Bool.false_eq_true, if_false, List.find?_cons, hp]
          exact ih

theorem find?_overwrite_ne {β : Type} (d : List (String × β)) (k k' : String) (v : β)
    (hne : k' ≠ k) :
    (d.map (fun p => if p.1 == k' then (k', v) else p)).find? (fun p => p.1 == k) =
      d.find? (fun p => p.1 == k) := by
  induction d with
  | nil => rfl
  | cons p d ih =>
      rw [List.map_cons]
      cases hp : (p.1 == k') with
      | true =>
          have hp1 : p.1 = k' := by simpa using hp
          have hpk : (p.1 == k) = false := by simp [hp1, hne]
          have hk'k : (k' == k) = false := by simp [hne]
          simp only [if_true, List.find?_cons, hpk, hk'k]
          exact ih
      | false =>
          simp only [Bool.false_eq_true, if_false, List.find?_cons]
          cases hpk : (p.1 == k) with
          | true => rfl
          | false => exact ih

theorem find?_dset_self {β : Type} (d : List (String × β)) (k : String) (v : β) :
    (dset d k v).find? (fun p => p.1 == k) = some (k, v) := by
  unfold dset
  by_cases h : dmem d k = true
  · rw [if_pos h, find?_overwrite_self]
    rw [dmem_eq_isSome] at h
    rcases Option.isSome_iff_exists.mp h with ⟨q, hq⟩
    rw [hq]
    rfl
  · rw [if_neg h, List.find?_append]
    have hnone : d.find? (fun p => p.1 == k) = none := by
      rw [Bool.not_eq_true, dmem_eq_isSome] at h
      exact Option.not_isSome_iff_eq_none.mp (by simp [h])
    rw [hnone]
    simp

theorem find?_dset_ne {β : Type} (d : List (String × β)) (k k' : String) (v : β)
    (hne : k' ≠ k) :
    (dset d k' v).find? (fun p => p.1 == k) = d.find? (fun p => p.1 == k) := by
  unfold dset
  by_cases h : dmem d k' = true
  · rw [if_pos h, find?_overwrite_ne _ _ _ _ hne]
  · rw [if_neg h, List.find?_append]
    cases hfind : d.find? (fun p : String × β => p.1 == k) with
    | none => simp [hne]
    | some q => simp

theorem dget_dset_self {β : Type} (d : List (String × β)) (k : String) (v : β) :
    dget (dset d k v) k = some v := by
  unfold dget
  rw [find?_dset_self]
  rfl

theorem dget_dset_ne {β : Type} (d : List (String × β)) (k k' : String) (v : β)
    (hne : k' ≠ k) : dget (dset d k' v) k = dget d k := by
  unfold dget
  rw [find?_dset_ne _ _ _ _ hne]

theorem dmem_dset_self {β : Type} (d : List (String × β)) (k : String) (v : β) :
    dmem (dset d k v) k = true := by
  rw [dmem_eq_isSome, find?_dset_self]
  rfl

theorem dmem_dset_ne {β : Type} (d : List (String × β)) (k k' : String) (v : β)
    (hne : k' ≠ k) : dmem (dset d k' v) k = dmem d k := by
  rw [dmem_eq_isSome, find?_dset_ne _ _ _ _ hne, ← dmem_eq_isSome]

theorem dmem_dset_mono {β : Type} (d : List (String × β)) (k k' : String) (v : β)
    (h : dmem d k = true) : dmem (dset d k' v) k = true := by
  by_cases hk : k' = k
  · subst hk
    exact dmem_dset_self d k' v
  · rw [dmem_dset_ne d k k' v hk]
    exact h

theorem dmem_iff_exists_dget {β : Type} (d : List (String × β)) (k : String) :
    dmem d k = true ↔ ∃ v, dget d k = some v := by
  rw [dmem_eq_isSome]
  unfold dget
  cases h : d.find? (fun p => p.1 == k) with
  | none => simp
  | some q => simp

/-! ### Signal-chain helper lemmas -/

theorem clampUnit_bounds {α : Type} [LinearOrderedField α] (x : α) :
    -1 ≤ clampUnit x ∧ clampUnit x ≤ 1 := by
  refine ⟨le_max_left _ _, max_le (by norm_num) (min_le_left _ _)⟩

theorem chain_mem_bounds {α : Type} [LinearOrderedField α] (ops : MathOps α)
    (ps : Params α) (xs : List α) :
    ∀ y ∈ ((xs.map (preprocessSample ps)).map (namSimSample ops ps)).map
      (postprocessSample ps), -1 ≤ y ∧ y ≤ 1 := by
  intro y hy
  rcases List.mem_map.mp hy with ⟨x, _, hx⟩
  rw [← hx]
  unfold postprocessSample
  exact clampUnit_bounds _

theorem process_audio_ok {α : Type} [LinearOrderedField α] (ops : MathOps α)
    (s : SimState α) (c : String) (md : Dict) (xs : List α)
    (hc : s.current_model = some c) (hm : dget s.loaded_models c = some md) :
    process_audio ops s (AudioInput.arr xs) =
      Except.ok (((xs.map (preprocessSample s.params)).map
        (namSimSample ops s.params)).map (postprocessSample s.params)) := by
  unfold process_audio
  simp only [hc, hm]

/-! ### Claim C3 -/

/-- C3 counterexample: `validate_nam_file` accepts a record whose `file_path`
value is the empty string, while the claim's reading of validity
(`specValid`, requiring a non-empty `origin_path` string) rejects it, so the
claimed iff fails at this record. -/
theorem c3_counterexample :
    validate_nam_file [("file_path", JVal.jstr ""), ("model_type", JVal.jstr "nam")] = true ∧
    specValid [("file_path", JVal.jstr ""), ("model_type", JVal.jstr "nam")] = false := by
  constructor
  · decide
  · decide

/-- C3 (amended): `validate_nam_file` returns `true` iff the `file_path` key
is present and the `model_type` key is present — a pure key-presence check
that never inspects the stored values — and the result is unchanged by
mutating any other key of the record. -/
theorem c3_validate_structural (d : Dict) :
    (validate_nam_file d = true ↔
      (∃ v, dget d "file_path" = some v) ∧ (∃ v, dget d "model_type" = some v)) ∧
    (∀ (k : String) (v : JVal), k ≠ "file_path" → k ≠ "model_type" →
      validate_nam_file (dset d k v) = validate_nam_file d) := by
  constructor
  · unfold validate_nam_file
    rw [Bool.and_eq_true, dmem_iff_exists_dget, dmem_iff_exists_dget]
  · intro k v hk1 hk2
    unfold validate_nam_file
    rw [dmem_dset_ne _ _ _ _ hk1, dmem_dset_ne _ _ _ _ hk2]

/-- Witness for the amended C3 theorem: mutating an unrelated key of a
concrete record leaves validation unchanged. -/
theorem c3_validate_structural_witness :
    validate_nam_file (dset [("file_path", JVal.jstr "a"), ("model_type", JVal.jstr "nam")]
        "name" (JVal.jstr "x")) =
      validate_nam_file [("file_path", JVal.jstr "a"), ("model_type", JVal.jstr "nam")] :=
  (c3_validate_structural _).2 "name" (JVal.jstr "x") (by decide) (by decide)

/-! ### Claim C8 -/

/-- C8: `set_current_model` on a name absent from the models mapping raises
`UnknownModel` and returns the state unchanged (current selection and models
mapping intact); on a present name it sets `current_model` to that name. -/
theorem c8_set_current_model {α : Type} (s : SimState α) (name : String) :
    (dmem s.loaded_models name = false →
      set_current_model s name = (s, Except.error (SimErr.unknownModel name))) ∧
    (dmem s.loaded_models name = true →
      set_current_model s name =
        ({ s with current_model := some name }, Except.ok ())) := by
  constructor
  · intro h
    simp [set_current_model, h]
  · intro h
    simp [set_current_model, h]

/-- Witness for C8: selecting `"nonexistent"` in the fresh simulator fails
with `UnknownModel` and leaves the state unchanged. -/
theorem c8_set_current_model_witness :
    set_current_model (initState (α := ℚ)) "nonexistent" =
      (initState, Except.error (SimErr.unknownModel "nonexistent")) :=
  (c8_set_current_model (initState (α := ℚ)) "nonexistent").1 (by decide)

/-! ### Claim C10 -/

/-- C10: whenever `load_nam_model` raises, the simulator state is exactly as
before the call; the record is inserted and the current selection updated
only after loading and validation have both succeeded. -/
theorem c10_load_atomic {α : Type} (fs : FileSys) (s : SimState α) (p : FPath)
    (name : Option String) (e : SimErr)
    (h : (load_nam_model fs s p name).2 = Except.error e) :
    (load_nam_model fs s p name).1 = s := by
  unfold load_nam_model at h ⊢
  cases hload : load_nam_file fs p with
  | error e' => simp [hload]
  | ok md =>
      simp only [hload] at h ⊢
      by_cases hv : validate_nam_file md = true
      · simp only [hv, if_true] at h
        cases hcur : s.current_model with
        | none =>
            rw [hcur] at h
            simp at h
        | some c0 =>
            rw [hcur] at h
            simp at h
      · simp [hv]

/-- Witness for C10: loading from an empty file system fails and leaves the
fresh simulator state untouched. -/
theorem c10_load_atomic_witness :
    (load_nam_model (fun _ => none) (initState (α := ℚ))
      { pstr := "missing.nam", stem := "missing", suffix := ".nam" } none).1 = initState :=
  c10_load_atomic (fun _ => none) (initState (α := ℚ))
    { pstr := "missing.nam", stem := "missing", suffix := ".nam" } none
    SimErr.modelLoadError rfl

/-! ### Claim C7 -/

/-- C7: `process_audio` raises `NoModelSelected` whenever the current
selection is unset, whatever the argument; with a selection set it raises
`InvalidInput` on a non-array argument — both gates fire before any
processing stage runs. -/
theorem c7_process_gates {α : Type} [LinearOrderedField α] (ops : MathOps α)
    (s : SimState α) :
    (s.current_model = none → ∀ input : AudioInput α,
      process_audio ops s input = Except.error SimErr.noModelSelected) ∧
    (∀ c, s.current_model = some c →
      process_audio ops s AudioInput.notArray = Except.error SimErr.invalidInput) := by
  constructor
  · intro h input
    simp [process_audio, h]
  · intro c h
    simp [process_audio, h]

/-- Witness for C7: the fresh simulator rejects a buffer with
`NoModelSelected`; the demo state rejects a non-array with `InvalidInput`. -/
theorem c7_process_gates_witness :
    process_audio opsQ (initState (α := ℚ)) (AudioInput.arr [0]) =
      Except.error SimErr.noModelSelected ∧
    process_audio opsQ demoState AudioInput.notArray =
      Except.error SimErr.invalidInput :=
  ⟨(c7_process_gates opsQ (initState (α := ℚ))).1 rfl (AudioInput.arr [0]),
   (c7_process_gates opsQ demoState).2 "demo_model" rfl⟩

/-! ### Claim C6 -/

/-- C6: `set_parameters` clamps known fields into their declared ranges
instead of rejecting them — gain 5.0 stores 1.0, bias −5.0 stores −1.0, and
in general gain/tone/volume store clamp to [0,1] and bias to [−1,1] — while
an unknown field name only emits a warning and leaves the store unchanged. -/
theorem c6_set_parameters {α : Type} [LinearOrderedField α] (ps : Params α) :
    (set_parameters ps [("gain", (5 : α))]).1.gain = 1 ∧
    (set_parameters ps [("bias", (-5 : α))]).1.bias = -1 ∧
    (∀ v : α,
      (set_parameters ps [("gain", v)]).1 = { ps with gain := max 0 (min 1 v) } ∧
      (set_parameters ps [("tone", v)]).1 = { ps with tone := max 0 (min 1 v) } ∧
      (set_parameters ps [("volume", v)]).1 = { ps with volume := max 0 (min 1 v) } ∧
      (set_parameters ps [("bias", v)]).1 = { ps with bias := max (-1) (min 1 v) }) ∧
    (∀ (k : String) (v : α), k ≠ "gain" → k ≠ "tone" → k ≠ "volume" → k ≠ "bias" →
      set_parameters ps [(k, v)] = (ps, ["Unknown parameter: " ++ k])) := by
  refine ⟨?_, ?_, ?_, ?_⟩
  · simp [set_parameters, setOneParam]
  · simp [set_parameters, setOneParam]
  · intro v
    refine ⟨?_, ?_, ?_, ?_⟩ <;> simp [set_parameters, setOneParam]
  · intro k v h1 h2 h3 h4
    simp [set_parameters, setOneParam, h1, h2, h3, h4]

/-- Witness for C6: an unknown parameter name on the default store only
warns and leaves the parameters unchanged. -/
theorem c6_set_parameters_witness :
    set_parameters (initState (α := ℚ)).params [("wibble", (7 : ℚ))] =
      ((initState (α := ℚ)).params, ["Unknown parameter: wibble"]) :=
  (c6_set_parameters (initState (α := ℚ)).params).2.2.2 "wibble" 7
    (by decide) (by decide) (by decide) (by decide)

/-! ### Claim C9 -/

/-- C9: every `AmpSimulator` operation preserves the registry invariant that
a set current selection refers to an existing key of the models mapping, and
the first successful `load_nam_model` auto-selects the loaded name when no
selection existed before. -/
theorem c9_registry_invariant {α : Type} (fs : FileSys) (s : SimState α)
    (p : FPath) (name : Option String) (sel : String) :
    (RegInv s → RegInv (load_nam_model fs s p name).1) ∧
    (RegInv s → RegInv (set_current_model s sel).1) ∧
    (s.current_model = none → ∀ (s' : SimState α) (nm : String),
      load_nam_model fs s p name = (s', Except.ok nm) → s'.current_model = some nm) := by
  refine ⟨?_, ?_, ?_⟩
  · intro hinv
    unfold load_nam_model
    cases hload : load_nam_file fs p with
    | error e => simpa [hload] using hinv
    | ok md =>
        simp only [hload]
        by_cases hv : validate_nam_file md = true
        · simp only [hv, if_true]
          cases hcur : s.current_model with
          | none =>
              intro c hc
              have hc' : some (name.getD p.stem) = some c := hc
              cases hc'
              exact dmem_dset_self _ _ _
          | some c0 =>
              intro c hc
              have hc' : some c0 = some c := hc
              cases hc'
              exact dmem_dset_mono _ _ _ _ (hinv c0 hcur)
        · simpa [hv] using hinv
  · intro hinv
    unfold set_current_model
    by_cases hmem : dmem s.loaded_models sel = true
    · simp only [hmem, if_true]
      intro c hc
      have hc' : some sel = some c := hc
      cases hc'
      exact hmem
    · rw [if_neg (by simpa using hmem)]
      exact hinv
  · intro hcur s' nm heq
    unfold load_nam_model at heq
    cases hload : load_nam_file fs p with
    | error e =>
        rw [hload] at heq
        simp at heq
    | ok md =>
        rw [hload] at heq
        by_cases hv : validate_nam_file md = true
        · simp only [hv, if_true, hcur] at heq
          simp only [Prod.mk.injEq, Except.ok.injEq] at heq
          rcases heq with ⟨hs', hnm⟩
          rw [← hs', ← hnm]
        · simp [hv] at heq

/-- Witness for C9: after selecting the demo model, the invariant holds. -/
theorem c9_registry_invariant_witness :
    RegInv (set_current_model demoState "demo_model").1 :=
  (c9_registry_invariant (fun _ => none) demoState
      { pstr := "x.nam", stem := "x", suffix := ".nam" } none "demo_model").2.1
    (fun c hc => by
      rw [show c = "demo_model" from (Option.some.inj hc).symm]
      decide)

/-! ### Claim C4 -/

/-- C4: with a current model selected and present in the registry,
`process_audio` computes, element-wise and in order, clamp(x·gain+bias),
then with drive = 1+tone·4 clamp(tanh(x'·drive)/drive + sin(x'·π)·tone·0.1),
then clamp(y·volume); the output has the input's length, and the stored
record's payload never enters the computation (replacing it changes
nothing). -/
theorem c4_pipeline {α : Type} [LinearOrderedField α] (ops : MathOps α)
    (s : SimState α) (c : String) (md : Dict) (xs : List α)
    (hc : s.current_model = some c) (hm : dget s.loaded_models c = some md) :
    (process_audio ops s (AudioInput.arr xs) =
      Except.ok (xs.map (fun x =>
        let xp := max (-1) (min 1 (x * s.params.gain + s.params.bias))
        let drive := 1 + s.params.tone * 4
        let y := max (-1) (min 1
          (ops.tanh (xp * drive) / drive + ops.sin (xp * ops.piv) * s.params.tone * 0.1))
        max (-1) (min 1 (y * s.params.volume))))) ∧
    (∀ out, process_audio ops s (AudioInput.arr xs) = Except.ok out →
      out.length = xs.length) ∧
    (∀ md' : Dict, process_audio ops
        { s with loaded_models := dset s.loaded_models c md' } (AudioInput.arr xs) =
      process_audio ops s (AudioInput.arr xs)) := by
  have hmain := process_audio_ok ops s c md xs hc hm
  refine ⟨?_, ?_, ?_⟩
  · rw [hmain, List.map_map, List.map_map]
    rfl
  · intro out hout
    rw [hmain] at hout
    injection hout with hchain
    rw [← hchain]
    simp [List.length_map]
  · intro md'
    have hc' : ({ s with loaded_models := dset s.loaded_models c md' } :
        SimState α).current_model = some c := hc
    have hm' : dget ({ s with loaded_models := dset s.loaded_models c md' } :
        SimState α).loaded_models c = some md' := dget_dset_self _ _ _
    rw [process_audio_ok ops _ c md' xs hc' hm', hmain]

/-- Witness for C4 (payload independence conjunct): replacing the demo
record by an empty payload leaves the processed output unchanged. -/
theorem c4_pipeline_witness :
    process_audio opsQ
      { demoState with loaded_models := dset demoState.loaded_models "demo_model" [] }
      (AudioInput.arr [(0 : ℚ)]) =
    process_audio opsQ demoState (AudioInput.arr [(0 : ℚ)]) :=
  (c4_pipeline opsQ demoState "demo_model" demoRec [0] rfl rfl).2.2 []

/-! ### Claim C5 -/

/-- C5: whenever `process_audio` returns a buffer for an input whose samples
all lie in [−1,1], every sample of the returned buffer lies in [−1,1]. -/
theorem c5_range {α : Type} [LinearOrderedField α] (ops : MathOps α)
    (s : SimState α) (xs out : List α)
    (_hin : ∀ x ∈ xs, -1 ≤ x ∧ x ≤ 1)
    (hout : process_audio ops s (AudioInput.arr xs) = Except.ok out) :
    ∀ y ∈ out, -1 ≤ y ∧ y ≤ 1 := by
  unfold process_audio at hout
  cases hc : s.current_model with
  | none =>
      simp only [hc] at hout
      exact Except.noConfusion hout
  | some c =>
      simp only [hc] at hout
      cases hm : dget s.loaded_models c with
      | none =>
          simp only [hm] at hout
          exact Except.noConfusion hout
      | some md =>
          simp only [hm, Except.ok.injEq] at hout
          rw [← hout]
          exact chain_mem_bounds ops s.params xs

/-- Witness for C5 at the demo state and the one-sample buffer [0]. -/
theorem c5_range_witness :
    (∀ x ∈ [(0 : ℚ)], -1 ≤ x ∧ x ≤ 1) ∧
    (∀ y ∈ ((([(0 : ℚ)].map (preprocessSample demoState.params)).map
        (namSimSample opsQ demoState.params)).map (postprocessSample demoState.params)),
      -1 ≤ y ∧ y ≤ 1) :=
  ⟨by decide,
   c5_range opsQ demoState [0] _ (by decide)
     (process_audio_ok opsQ demoState "demo_model" demoRec [0] rfl rfl)⟩

/-! ### Claim C2 -/

theorem load_nam_file_nam (fs : FileSys) (p : FPath) (f : File)
    (hf : fs p.pstr = some f) (hsfx : strToLower p.suffix = ".nam") :
    load_nam_file fs p = load_nam_model_file p f := by
  unfold load_nam_file
  simp only [hf, hsfx]
  rfl

theorem load_nam_file_json (fs : FileSys) (p : FPath) (f : File)
    (hf : fs p.pstr = some f) (hsfx : strToLower p.suffix = ".json") :
    load_nam_file fs p = load_json_metadata p f := by
  unfold load_nam_file
  simp only [hf, hsfx]
  rfl

theorem stampNam_file_path (p : FPath) (f : File) (d : Dict) :
    dget (stampNam p f d) "file_path" = some (JVal.jstr p.pstr) := by
  unfold stampNam
  rw [dget_dset_ne _ _ _ _ (by decide), dget_dset_ne _ _ _ _ (by decide),
    dget_dset_self]

theorem stampNam_model_type (p : FPath) (f : File) (d : Dict) :
    dget (stampNam p f d) "model_type" = some (JVal.jstr "nam") := by
  unfold stampNam
  rw [dget_dset_self]

/-- C2 counterexample: loading the well-formed metadata file
`{"name": "clean_jazz"}` returns a record with no `model_type`
(`record_kind`) key at all — the json branch stamps `metadata_type`
instead — so the claim fails for the `.json` extension. -/
theorem c2_counterexample :
    load_nam_file cleanJazzFs cleanJazzPath =
      Except.ok [("name", JVal.jstr "clean_jazz"),
                 ("file_path", JVal.jstr "clean_jazz.json"),
                 ("metadata_type", JVal.jstr "nam_config")] ∧
    dmem [("name", JVal.jstr "clean_jazz"),
          ("file_path", JVal.jstr "clean_jazz.json"),
          ("metadata_type", JVal.jstr "nam_config")] "model_type" = false := by
  constructor
  · rfl
  · decide

/-- C2 (amended): for a structurally well-formed existing file of either
supported extension, `load_nam_file` does not raise and returns a record
whose `file_path` is the (non-empty) path string; the `.nam` branch always
sets `model_type`, while the `.json` branch sets `metadata_type` instead of
`model_type`. -/
theorem c2_load_wellformed (fs : FileSys) (p : FPath) (f : File)
    (hf : fs p.pstr = some f) (hne : p.pstr ≠ "") :
    (strToLower p.suffix = ".nam" → f.pickleResult ≠ PickleResult.otherErr →
      ∃ rec, load_nam_file fs p = Except.ok rec ∧
        (∃ str, dget rec "file_path" = some (JVal.jstr str) ∧ str ≠ "") ∧
        (∃ t, dget rec "model_type" = some (JVal.jstr t))) ∧
    (strToLower p.suffix = ".json" → ∀ d, f.jsonResult = JsonResult.asDict d →
      ∃ rec, load_nam_file fs p = Except.ok rec ∧
        (∃ str, dget rec "file_path" = some (JVal.jstr str) ∧ str ≠ "") ∧
        dget rec "metadata_type" = some (JVal.jstr "nam_config")) := by
  constructor
  · intro hsfx hpk
    rw [load_nam_file_nam fs p f hf hsfx]
    unfold load_nam_model_file
    cases hpick : f.pickleResult with
    | asDict d =>
        exact ⟨stampNam p f d, rfl,
          ⟨p.pstr, stampNam_file_path p f d, hne⟩, "nam", stampNam_model_type p f d⟩
    | asOther v =>
        exact ⟨stampNam p f [("raw_data", v)], rfl,
          ⟨p.pstr, stampNam_file_path p f _, hne⟩, "nam", stampNam_model_type p f _⟩
    | unpickleErr =>
        exact ⟨load_alternative_format p f, rfl, ⟨p.pstr, rfl, hne⟩, "nam_binary", rfl⟩
    | otherErr => exact absurd hpick hpk
  · intro hsfx d hjson
    rw [load_nam_file_json fs p f hf hsfx]
    unfold load_json_metadata
    rw [hjson]
    refine ⟨_, rfl, ⟨p.pstr, ?_, hne⟩, dget_dset_self _ _ _⟩
    rw [dget_dset_ne _ _ _ _ (by decide), dget_dset_self]

/-- Witness for the amended C2 theorem on the concrete metadata file. -/
theorem c2_load_wellformed_witness :
    ∃ rec, load_nam_file cleanJazzFs cleanJazzPath = Except.ok rec ∧
      (∃ str, dget rec "file_path" = some (JVal.jstr str) ∧ str ≠ "") ∧
      dget rec "metadata_type" = some (JVal.jstr "nam_config") :=
  (c2_load_wellformed cleanJazzFs cleanJazzPath cleanJazzFile rfl (by decide)).2
    rfl [("name", JVal.jstr "clean_jazz")] rfl

/-! ### Claim C1 -/

/-- C1 counterexample: on the spec's own scenario file `{"name":
"clean_jazz"}`, `load_nam_model` does not succeed — the loaded record
carries `metadata_type` but no `model_type`, so `validate_nam_file`
rejects it and the load raises `ValueError` ("Failed to load NAM model"). -/
theorem c1_counterexample :
    (load_nam_model cleanJazzFs (initState (α := ℚ)) cleanJazzPath none).2 =
      Except.error SimErr.modelLoadError := rfl

/-- C1 (amended): the end-to-end scenario holds once the metadata JSON
itself carries a `model_type` key (here `{"name": "clean_jazz",
"model_type": "nam_config"}`): `load_nam_model` succeeds auto-deriving the
name `"clean_jazz"` from the file stem, `get_loaded_models` contains it,
`set_current_model` on it succeeds, and `process_audio` on any 44100-sample
buffer with values in [−1,1] returns a 44100-sample buffer with values in
[−1,1]. -/
theorem c1_scenario {α : Type} [LinearOrderedField α] (ops : MathOps α) :
    (load_nam_model cleanJazzTypedFs (initState (α := α)) cleanJazzPath none).2 =
      Except.ok "clean_jazz" ∧
    "clean_jazz" ∈ get_loaded_models (c1LoadedState (α := α)) ∧
    (set_current_model (c1LoadedState (α := α)) "clean_jazz").2 = Except.ok () ∧
    (∀ xs : List α, xs.length = 44100 → (∀ x ∈ xs, -1 ≤ x ∧ x ≤ 1) →
      ∃ out, process_audio ops (c1SelectedState (α := α)) (AudioInput.arr xs) =
          Except.ok out ∧ out.length = 44100 ∧ ∀ y ∈ out, -1 ≤ y ∧ y ≤ 1) := by
  refine ⟨rfl, ?_, rfl, ?_⟩
  · exact List.Mem.head _
  · intro xs hlen hin
    refine ⟨_, process_audio_ok ops (c1SelectedState (α := α)) "clean_jazz" _ xs rfl rfl,
      ?_, ?_⟩
    · simp only [List.length_map]
      exact hlen
    · exact chain_mem_bounds ops _ xs

/-- Witness for the amended C1 theorem on the constant 44100-sample zero
buffer. -/
theorem c1_scenario_witness :
    (List.replicate 44100 (0 : ℚ)).length = 44100 ∧
    (∃ out, process_audio opsQ (c1SelectedState (α := ℚ))
        (AudioInput.arr (List.replicate 44100 (0 : ℚ))) = Except.ok out ∧
      out.length = 44100 ∧ ∀ y ∈ out, -1 ≤ y ∧ y ≤ 1) :=
  ⟨List.length_replicate 44100 0,
   (c1_scenario opsQ).2.2.2 (List.replicate 44100 0) (List.length_replicate 44100 0)
     (fun x hx => by rw [List.eq_of_mem_replicate hx]; exact ⟨by norm_num, by norm_num⟩)⟩
